import Mathlib

/-
Verification of the libevtx record-values module
(src/libevtx/libevtx_record_values.c) against its specification.

The C code is shallowly embedded: chunk buffers are lists of byte values
(Nat < 256 in intended use), machine integers are Nat with explicit
reductions modulo 2^w where overflow matters, the mutable record struct is
passed and returned explicitly, and every fallible C function returns its
int status together with the record state and any out-parameter values.

The XML tree and its query operations live in libfwevt/libfvalue, which are
not part of src/; they are modelled from the specification (sections 3, 4.3
and 7) and are marked as such below.
-/

set_option autoImplicit false

namespace Evtx

/-- Little-endian 32-bit read, embedding byte_stream_copy_to_uint32_little_endian.
Out-of-range indexes yield byte 0; all uses in the embedded code are guarded
by the same bounds checks the C performs before reading. -/
def byte_stream_copy_to_uint32_little_endian (data : List Nat) (o : Nat) : Nat :=
  data.getD o 0 + 256 * data.getD (o + 1) 0 + 65536 * data.getD (o + 2) 0 +
    16777216 * data.getD (o + 3) 0

/-- Little-endian 64-bit read, embedding byte_stream_copy_to_uint64_little_endian. -/
def byte_stream_copy_to_uint64_little_endian (data : List Nat) (o : Nat) : Nat :=
  byte_stream_copy_to_uint32_little_endian data o +
    4294967296 * byte_stream_copy_to_uint32_little_endian data (o + 4)

/-- Modelled from the spec: the XML tree node of section 3 (libfwevt_xml_tag_t,
libfwevt is not under src/). A tag carries a name, an attribute list, a child
element list and an optional typed value. Typed values are modelled by their
numeric interpretation (the claims only exercise integer coercion); a value
of `none` models a NULL libfvalue handle. -/
inductive XmlTag where
  | mk (name : String) (attributes : List XmlTag) (elements : List XmlTag)
      (value : Option Nat)

def XmlTag.name : XmlTag → String
  | .mk n _ _ _ => n

def XmlTag.attributes : XmlTag → List XmlTag
  | .mk _ a _ _ => a

def XmlTag.elements : XmlTag → List XmlTag
  | .mk _ _ e _ => e

def XmlTag.value : XmlTag → Option Nat
  | .mk _ _ _ v => v

/-- Modelled from the spec: tri-valued result of the libfwevt query functions,
1 = ok (out parameter written), 0 = not available, -1 = error (section 6). -/
inductive FwevtResult (α : Type) where
  | ok (val : α)
  | notAvailable
  | error

/-- First child element whose UTF-8 name equals the query (section 4.3:
query by element name, byte-exact equality). -/
def findElementNamed (t : XmlTag) (utf8_name : String) : Option XmlTag :=
  t.elements.find? (fun e => e.name == utf8_name)

/-- First attribute whose UTF-8 name equals the query (section 4.3). -/
def findAttributeNamed (t : XmlTag) (utf8_name : String) : Option XmlTag :=
  t.attributes.find? (fun e => e.name == utf8_name)

/-- Modelled from the spec: libfwevt_xml_tag_get_element_by_utf8_name.
A NULL tag is an ArgumentError (section 7); otherwise 1 with the first
matching child element, or 0 when absent. -/
def libfwevt_xml_tag_get_element_by_utf8_name (xml_tag : Option XmlTag)
    (utf8_name : String) : FwevtResult XmlTag :=
  match xml_tag with
  | none => FwevtResult.error
  | some t =>
    match findElementNamed t utf8_name with
    | some e => FwevtResult.ok e
    | none => FwevtResult.notAvailable

/-- Modelled from the spec: libfwevt_xml_tag_get_attribute_by_utf8_name.
A NULL tag is an ArgumentError (section 7); otherwise 1 with the first
matching attribute, or 0 when absent. -/
def libfwevt_xml_tag_get_attribute_by_utf8_name (xml_tag : Option XmlTag)
    (utf8_name : String) : FwevtResult XmlTag :=
  match xml_tag with
  | none => FwevtResult.error
  | some t =>
    match findAttributeNamed t utf8_name with
    | some a => FwevtResult.ok a
    | none => FwevtResult.notAvailable

/-- Modelled from the spec: libfwevt_xml_tag_get_value. A NULL tag is an
ArgumentError; otherwise the tag's (possibly NULL) value handle is returned
with status 1. -/
def libfwevt_xml_tag_get_value (xml_tag : Option XmlTag) :
    FwevtResult (Option Nat) :=
  match xml_tag with
  | none => FwevtResult.error
  | some t => FwevtResult.ok t.value

/-- Modelled from the spec: libfwevt_xml_tag_get_number_of_elements on a
non-NULL tag. -/
def libfwevt_xml_tag_get_number_of_elements (t : XmlTag) : Nat :=
  t.elements.length

/-- Modelled from the spec: libfwevt_xml_tag_get_element_by_index on a
non-NULL tag; `none` models the out-of-range error. -/
def libfwevt_xml_tag_get_element_by_index (t : XmlTag) (i : Nat) :
    Option XmlTag :=
  t.elements.get? i

/-- Modelled from the spec: libfvalue_value_copy_to_32bit, the typed-value
coercion to u32 of section 4.3 with OverflowOrTruncation error on loss;
`none` is failure (NULL handle or value not representable in 32 bits). -/
def libfvalue_value_copy_to_32bit (value : Option Nat) : Option Nat :=
  match value with
  | none => none
  | some n => if n < 4294967296 then some n else none

/-- Modelled from the spec: libfvalue_value_copy_to_8bit, coercion to u8. -/
def libfvalue_value_copy_to_8bit (value : Option Nat) : Option Nat :=
  match value with
  | none => none
  | some n => if n < 256 then some n else none

/-- The libevtx_record_values_t struct. Pointer members are modelled as
Option values; `none` is a NULL pointer. `xml_document` holds the root tag
of the decoded document. -/
structure RecordValues where
  chunk_data_offset : Nat
  data_size : Nat
  identifier : Nat
  written_time : Nat
  xml_document : Option XmlTag
  event_identifier_value : Option Nat
  level_value : Option Nat
  provider_name_value : Option Nat
  computer_value : Option Nat
  event_data_xml_tag : Option XmlTag
  event_data_type : Nat
  binary_data_value : Option Nat

/-- Record values after libevtx_record_values_initialize: the struct is
zero-filled, so every pointer member is NULL and every integer is 0. -/
def RecordValues.empty : RecordValues :=
  { chunk_data_offset := 0, data_size := 0, identifier := 0, written_time := 0,
    xml_document := none, event_identifier_value := none, level_value := none,
    provider_name_value := none, computer_value := none,
    event_data_xml_tag := none, event_data_type := 0, binary_data_value := none }

/-- Error kinds produced by libevtx_record_values_read_header, in the order
the C code can raise them. -/
inductive HeaderError where
  | sizeExceedsMaximum
  | offsetOutOfBounds
  | dataTooSmall
  | unsupportedSignature
  | sizeOutOfBounds
  deriving DecidableEq

/-- Size of evtx_event_record_header_t. Modelled from the spec: the struct
lives in evtx_event_record.h which is not under src/; section 3 gives the
layout signature[4], size u32, identifier u64, written_time u64 = 24 bytes. -/
def evtx_event_record_header_size : Nat := 24

/-- Test of the 4 signature bytes against evtx_event_record_signature
(2A 2A 00 00), embedding the memory_compare call. -/
def signatureMatches (chunk_data : List Nat) (o : Nat) : Bool :=
  chunk_data.getD o 0 == 0x2a && chunk_data.getD (o + 1) 0 == 0x2a &&
    chunk_data.getD (o + 2) 0 == 0 && chunk_data.getD (o + 3) 0 == 0

/-- The four header stores performed once the signature check has passed:
chunk_data_offset, data_size, identifier and written_time are copied out of
the header bytes (little-endian). -/
def readHeaderStores (rv : RecordValues) (chunk_data : List Nat) (o : Nat) :
    RecordValues :=
  { rv with
    chunk_data_offset := o,
    data_size := byte_stream_copy_to_uint32_little_endian chunk_data (o + 4),
    identifier := byte_stream_copy_to_uint64_little_endian chunk_data (o + 8),
    written_time := byte_stream_copy_to_uint64_little_endian chunk_data (o + 16) }

/-- Embedding of libevtx_record_values_read_header. The chunk is a byte
list, so the NULL chunk_data check cannot fire; the SSIZE_MAX check is kept.
The io_handle argument is only NULL-checked by the C and is omitted. The
returned pair is (status, record state on return): the C stores the four
header fields after the signature check and before the size-range check, so
the sizeOutOfBounds error path returns the already-updated record. The
trailing copy-of-size read is performed for diagnostics only and not
validated (the `TODO validate size with copy` in the source). -/
def libevtx_record_values_read_header (rv : RecordValues)
    (chunk_data : List Nat) (chunk_data_offset : Nat) :
    Except HeaderError Unit × RecordValues :=
  if 9223372036854775807 < chunk_data.length then
    (Except.error HeaderError.sizeExceedsMaximum, rv)
  else if chunk_data.length ≤ chunk_data_offset then
    (Except.error HeaderError.offsetOutOfBounds, rv)
  else if chunk_data.length - chunk_data_offset < evtx_event_record_header_size + 4 then
    (Except.error HeaderError.dataTooSmall, rv)
  else if signatureMatches chunk_data chunk_data_offset = false then
    (Except.error HeaderError.unsupportedSignature, rv)
  else if byte_stream_copy_to_uint32_little_endian chunk_data (chunk_data_offset + 4)
        < evtx_event_record_header_size
      ∨ chunk_data.length - chunk_data_offset - 4
        < byte_stream_copy_to_uint32_little_endian chunk_data (chunk_data_offset + 4) then
    (Except.error HeaderError.sizeOutOfBounds,
      readHeaderStores rv chunk_data chunk_data_offset)
  else
    (Except.ok (), readHeaderStores rv chunk_data chunk_data_offset)

/-- Embedding of libevtx_record_values_get_event_identifier, returning
(status, record state on return, out parameter on success). The function
first memoises the EventID value handle when it is still NULL (walking
Event/System/EventID; each lookup result is compared against 1, so a
missing element is an error), then coerces the memoised value to u32, then
looks up the Qualifiers attribute on the LOCAL eventid tag variable - which
stays NULL when the memoised branch was skipped - and on success ORs the
qualifiers shifted left 16 (as u32) into the result. -/
def libevtx_record_values_get_event_identifier (rv : RecordValues) :
    Int × RecordValues × Option Nat :=
  match rv.xml_document with
  | none => (-1, rv, none)
  | some _ =>
    match
      (if rv.event_identifier_value.isNone then
        match libfwevt_xml_tag_get_element_by_utf8_name rv.xml_document ("System") with
        | FwevtResult.ok system_xml_tag =>
          match libfwevt_xml_tag_get_element_by_utf8_name (some system_xml_tag) ("EventID") with
          | FwevtResult.ok eventid_xml_tag =>
            match libfwevt_xml_tag_get_value (some eventid_xml_tag) with
            | FwevtResult.ok v =>
              Except.ok ({ rv with event_identifier_value := v }, some eventid_xml_tag)
            | _ => Except.error ()
          | _ => Except.error ()
        | _ => Except.error ()
      else
        Except.ok (rv, (none : Option XmlTag))) with
    | Except.error _ => (-1, rv, none)
    | Except.ok (rv1, eventid_xml_tag) =>
      match libfvalue_value_copy_to_32bit rv1.event_identifier_value with
      | none => (-1, rv1, none)
      | some event_identifier =>
        match libfwevt_xml_tag_get_attribute_by_utf8_name eventid_xml_tag ("Qualifiers") with
        | FwevtResult.error => (-1, rv1, none)
        | FwevtResult.notAvailable => (1, rv1, some event_identifier)
        | FwevtResult.ok qualifiers_xml_tag =>
          match libfwevt_xml_tag_get_value (some qualifiers_xml_tag) with
          | FwevtResult.ok qualifiers_value =>
            match libfvalue_value_copy_to_32bit qualifiers_value with
            | some qualifiers =>
              (1, rv1, some (Nat.lor event_identifier (qualifiers * 65536 % 4294967296)))
            | none => (-1, rv1, none)
          | _ => (-1, rv1, none)

/-- Embedding of libevtx_record_values_get_event_level, returning
(status, record state on return, out parameter on success). The Level value
handle is memoised on first use by walking Event/System/Level (each lookup
result compared against 1, so a missing element is an error), then coerced
to u8. -/
def libevtx_record_values_get_event_level (rv : RecordValues) :
    Int × RecordValues × Option Nat :=
  match rv.xml_document with
  | none => (-1, rv, none)
  | some _ =>
    match
      (if rv.level_value.isNone then
        match libfwevt_xml_tag_get_element_by_utf8_name rv.xml_document ("System") with
        | FwevtResult.ok system_xml_tag =>
          match libfwevt_xml_tag_get_element_by_utf8_name (some system_xml_tag) ("Level") with
          | FwevtResult.ok level_xml_tag =>
            match libfwevt_xml_tag_get_value (some level_xml_tag) with
            | FwevtResult.ok v => Except.ok { rv with level_value := v }
            | _ => Except.error ()
          | _ => Except.error ()
        | _ => Except.error ()
      else
        Except.ok rv) with
    | Except.error _ => (-1, rv, none)
    | Except.ok rv1 =>
      match libfvalue_value_copy_to_8bit rv1.level_value with
      | none => (-1, rv1, none)
      | some event_level => (1, rv1, some event_level)

/-- Value of LIBEVTX_RECORD_VALUES_EVENT_DATA_TYPE_EVENT_DATA. Modelled from
the spec: the enum lives in libevtx_record_values.h which is not under src/;
only distinctness of the two event-data kinds matters. -/
def LIBEVTX_RECORD_VALUES_EVENT_DATA_TYPE_EVENT_DATA : Nat := 1

/-- Value of LIBEVTX_RECORD_VALUES_EVENT_DATA_TYPE_USER_DATA. -/
def LIBEVTX_RECORD_VALUES_EVENT_DATA_TYPE_USER_DATA : Nat := 2

/-- Embedding of libevtx_record_values_get_event_data_xml_tag, returning
(status, out parameters when written). The event data container is the
EventData child of the root when present; otherwise, when a UserData child
is present, it must have exactly one child element, which becomes the
container. The out parameters (tag, event data type) are written only on
the status-1 paths, modelled by `some`. -/
def libevtx_record_values_get_event_data_xml_tag (rv : RecordValues) :
    Int × Option (XmlTag × Nat) :=
  match rv.xml_document with
  | none => (-1, none)
  | some root_xml_tag =>
    match libfwevt_xml_tag_get_element_by_utf8_name (some root_xml_tag) ("EventData") with
    | FwevtResult.error => (-1, none)
    | FwevtResult.ok event_data_xml_tag =>
      (1, some (event_data_xml_tag, LIBEVTX_RECORD_VALUES_EVENT_DATA_TYPE_EVENT_DATA))
    | FwevtResult.notAvailable =>
      match libfwevt_xml_tag_get_element_by_utf8_name (some root_xml_tag) ("UserData") with
      | FwevtResult.error => (-1, none)
      | FwevtResult.notAvailable => (0, none)
      | FwevtResult.ok user_data_xml_tag =>
        if libfwevt_xml_tag_get_number_of_elements user_data_xml_tag ≠ 1 then
          (-1, none)
        else
          match libfwevt_xml_tag_get_element_by_index user_data_xml_tag 0 with
          | none => (-1, none)
          | some first_xml_tag =>
            (1, some (first_xml_tag, LIBEVTX_RECORD_VALUES_EVENT_DATA_TYPE_USER_DATA))

/-- The Data-element test of the number-of-strings loop: the C first checks
that the UTF-8 name size is 5 (four characters plus the terminator) and then
compares the first four bytes with "Data"; on a four-character name that
byte-wise comparison is full name equality. -/
def isDataElement (t : XmlTag) : Bool :=
  t.name.length + 1 == 5 && t.name == "Data"

/-- The element loop of libevtx_record_values_get_number_of_strings for an
EventData container, iterated structurally over the child list (the C walks
the same list by index). A child named Data whose index differs from the
running count is the non-contiguous-Data error; the error carries the value
left in the out parameter. -/
def libevtx_record_values_count_data_strings :
    List XmlTag → Nat → Nat → Except Nat Nat
  | [], _, number_of_strings => Except.ok number_of_strings
  | element_xml_tag :: rest, element_index, number_of_strings =>
    if isDataElement element_xml_tag then
      if element_index ≠ number_of_strings then
        Except.error number_of_strings
      else
        libevtx_record_values_count_data_strings rest (element_index + 1)
          (number_of_strings + 1)
    else
      libevtx_record_values_count_data_strings rest (element_index + 1)
        number_of_strings

/-- Embedding of libevtx_record_values_get_number_of_strings, returning
(status, record state on return, value of the out parameter once it has been
written). The out parameter is set to 0 before the event-data container is
resolved (and memoised into the record on first use); a UserData container
reports its child count, an EventData container counts the contiguous Data
children. -/
def libevtx_record_values_get_number_of_strings (rv : RecordValues) :
    Int × RecordValues × Option Nat :=
  match rv.xml_document with
  | none => (-1, rv, none)
  | some _ =>
    match
      (if rv.event_data_xml_tag.isNone then
        match libevtx_record_values_get_event_data_xml_tag rv with
        | (r, out) =>
          if r = -1 then none
          else
            match out with
            | some (tag, ty) =>
              some { rv with event_data_xml_tag := some tag, event_data_type := ty }
            | none => some rv
      else
        some rv) with
    | none => (-1, rv, some 0)
    | some rv1 =>
      match rv1.event_data_xml_tag with
      | none => (1, rv1, some 0)
      | some event_data_xml_tag =>
        if rv1.event_data_type = LIBEVTX_RECORD_VALUES_EVENT_DATA_TYPE_USER_DATA then
          (1, rv1, some (libfwevt_xml_tag_get_number_of_elements event_data_xml_tag))
        else
          match libevtx_record_values_count_data_strings event_data_xml_tag.elements 0 0 with
          | Except.ok n => (1, rv1, some n)
          | Except.error m => (-1, rv1, some m)

/-- Embedding of libevtx_record_values_clone, returning (status, value of
the destination pointer). A NULL source yields a NULL destination. Otherwise
the whole struct is duplicated with memory_copy, ONLY the xml_document
member is then reset to NULL, and the source's XML document - when present -
is deep-cloned into it. Pointer aliasing is not representable over values;
the observable modelled here is that every memoised member of the
destination equals the source's (it is copied, not reset). -/
def libevtx_record_values_clone (source_record_values : Option RecordValues) :
    Int × Option RecordValues :=
  match source_record_values with
  | none => (1, none)
  | some source =>
    match source.xml_document with
    | none => (1, some { source with xml_document := none })
    | some doc => (1, some { { source with xml_document := none } with xml_document := some doc })

/-! Theorems about the record header parser. -/

/-- C8: for every chunk buffer and offset that pass the bounds, signature and
size-range checks, read_header returns 1; the trailing size_copy is read for
diagnostics only, so no hypothesis constrains it and a mismatch with the size
field is non-fatal. -/
theorem read_header_succeeds_despite_size_copy_mismatch
    (rv : RecordValues) (chunk_data : List Nat) (o : Nat)
    (hmax : chunk_data.length ≤ 9223372036854775807)
    (hoff : o < chunk_data.length)
    (hmin : evtx_event_record_header_size + 4 ≤ chunk_data.length - o)
    (hsig : signatureMatches chunk_data o = true)
    (hlo : evtx_event_record_header_size ≤
      byte_stream_copy_to_uint32_little_endian chunk_data (o + 4))
    (hhi : byte_stream_copy_to_uint32_little_endian chunk_data (o + 4) ≤
      chunk_data.length - o - 4) :
    (libevtx_record_values_read_header rv chunk_data o).1 = Except.ok () := by
  unfold libevtx_record_values_read_header
  rw [if_neg (Nat.not_lt.mpr hmax), if_neg (Nat.not_le.mpr hoff),
    if_neg (Nat.not_lt.mpr hmin), if_neg (by simp [hsig]),
    if_neg (not_or.mpr ⟨Nat.not_lt.mpr hlo, Nat.not_lt.mpr hhi⟩)]

/-- Chunk used to witness C8: signature valid, size = 28, size_copy bytes at
offset 24 are zero and so differ from the size field. -/
def size_copy_mismatch_chunk : List Nat :=
  [0x2a, 0x2a, 0, 0, 28, 0, 0, 0] ++ List.replicate 92 0

/-- Witness for C8 at a concrete chunk whose trailing size_copy (0) differs
from its size field (28): the header read still succeeds. -/
theorem read_header_succeeds_despite_size_copy_mismatch_witness :
    byte_stream_copy_to_uint32_little_endian size_copy_mismatch_chunk 24 ≠
      byte_stream_copy_to_uint32_little_endian size_copy_mismatch_chunk 4 ∧
    (libevtx_record_values_read_header RecordValues.empty size_copy_mismatch_chunk 0).1 =
      Except.ok () :=
  ⟨by decide,
    read_header_succeeds_despite_size_copy_mismatch RecordValues.empty
      size_copy_mismatch_chunk 0 (by decide) (by decide) (by decide) (by decide)
      (by decide) (by decide)⟩

/-- C9: when the chunk bounds and minimum-length checks pass, read_header
fails with the unsupported-signature error exactly when the 4 bytes at the
record offset differ from the constant 2A 2A 00 00; in particular a valid
signature with any byte flipped fails this way. -/
theorem read_header_signature_check
    (rv : RecordValues) (chunk_data : List Nat) (o : Nat)
    (hmax : chunk_data.length ≤ 9223372036854775807)
    (hoff : o < chunk_data.length)
    (hmin : evtx_event_record_header_size + 4 ≤ chunk_data.length - o) :
    (libevtx_record_values_read_header rv chunk_data o).1 =
        Except.error HeaderError.unsupportedSignature ↔
      signatureMatches chunk_data o = false := by
  unfold libevtx_record_values_read_header
  rw [if_neg (Nat.not_lt.mpr hmax), if_neg (Nat.not_le.mpr hoff),
    if_neg (Nat.not_lt.mpr hmin)]
  constructor
  · intro h
    by_contra hs
    rw [if_neg hs] at h
    split at h <;> simp_all
  · intro hs
    rw [if_pos hs]

/-- Chunk used to witness C9: the first signature byte of a valid record is
flipped from 2A to 2B. -/
def flipped_signature_chunk : List Nat :=
  [0x2b, 0x2a, 0, 0, 28, 0, 0, 0] ++ List.replicate 92 0

/-- Witness for C9 at a concrete chunk with one flipped signature byte:
read_header reports the unsupported-signature error. -/
theorem read_header_signature_check_witness :
    (libevtx_record_values_read_header RecordValues.empty flipped_signature_chunk 0).1 =
      Except.error HeaderError.unsupportedSignature :=
  (read_header_signature_check RecordValues.empty flipped_signature_chunk 0
    (by decide) (by decide) (by decide)).mpr (by decide)

/-- Chunk used as the C2 counterexample: valid signature, stored size
27 = HDR + 3, buffer of 100 bytes, so every check the code actually performs
passes. -/
def size_header_plus_three_chunk : List Nat :=
  [0x2a, 0x2a, 0, 0, 27, 0, 0, 0] ++ List.replicate 92 0

/-- Counterexample to C2: a record whose stored size is HDR + 3 = 27 in a
sufficiently large chunk is accepted by read_header (status 1), while the
claim says every size below HDR + 4 is rejected. -/
theorem read_header_accepts_size_header_plus_three :
    byte_stream_copy_to_uint32_little_endian size_header_plus_three_chunk 4 =
      evtx_event_record_header_size + 3 ∧
    (libevtx_record_values_read_header RecordValues.empty size_header_plus_three_chunk 0).1 =
      Except.ok () :=
  ⟨by decide, rfl⟩

/-- C2 amended: when the bounds and signature checks pass, read_header fails
with the size-out-of-bounds error exactly when the stored size is below HDR
(not HDR + 4) or exceeds the available data minus the 4 trailing size-copy
bytes. -/
theorem read_header_size_range_check
    (rv : RecordValues) (chunk_data : List Nat) (o : Nat)
    (hmax : chunk_data.length ≤ 9223372036854775807)
    (hoff : o < chunk_data.length)
    (hmin : evtx_event_record_header_size + 4 ≤ chunk_data.length - o)
    (hsig : signatureMatches chunk_data o = true) :
    (libevtx_record_values_read_header rv chunk_data o).1 =
        Except.error HeaderError.sizeOutOfBounds ↔
      (byte_stream_copy_to_uint32_little_endian chunk_data (o + 4) <
          evtx_event_record_header_size ∨
        chunk_data.length - o - 4 <
          byte_stream_copy_to_uint32_little_endian chunk_data (o + 4)) := by
  unfold libevtx_record_values_read_header
  rw [if_neg (Nat.not_lt.mpr hmax), if_neg (Nat.not_le.mpr hoff),
    if_neg (Nat.not_lt.mpr hmin), if_neg (by simp [hsig])]
  constructor
  · intro h
    by_contra hc
    rw [if_neg hc] at h
    exact absurd h (by simp)
  · intro hc
    rw [if_pos hc]

/-- Chunk used to witness the amended C2: valid signature, stored size
23 < HDR. -/
def size_below_header_chunk : List Nat :=
  [0x2a, 0x2a, 0, 0, 23, 0, 0, 0] ++ List.replicate 92 0

/-- Witness for the amended C2 at a concrete chunk with stored size 23 < HDR:
read_header reports the size-out-of-bounds error. -/
theorem read_header_size_range_check_witness :
    (libevtx_record_values_read_header RecordValues.empty size_below_header_chunk 0).1 =
      Except.error HeaderError.sizeOutOfBounds :=
  (read_header_size_range_check RecordValues.empty size_below_header_chunk 0
    (by decide) (by decide) (by decide) (by decide)).mpr (Or.inl (by decide))

/-- Record with a recognisable pre-existing data_size, used as the C4
counterexample. -/
def stale_record : RecordValues :=
  { RecordValues.empty with data_size := 7777, identifier := 99 }

/-- Chunk used as the C4 counterexample: valid signature, stored size 0, so
the size-range validation fails after the header fields have been stored. -/
def size_zero_chunk : List Nat :=
  [0x2a, 0x2a, 0, 0, 0, 0, 0, 0] ++ List.replicate 92 0

/-- Counterexample to C4: read_header returns the size-out-of-bounds error
(-1) on this input, yet the record's data_size and identifier fields have
been overwritten (7777 and 99 became 0), so outputs ARE written on this
error path. -/
theorem read_header_writes_fields_on_size_error :
    (libevtx_record_values_read_header stale_record size_zero_chunk 0).1 =
      Except.error HeaderError.sizeOutOfBounds ∧
    (libevtx_record_values_read_header stale_record size_zero_chunk 0).2.data_size = 0 ∧
    stale_record.data_size = 7777 ∧
    (libevtx_record_values_read_header stale_record size_zero_chunk 0).2.identifier = 0 ∧
    stale_record.identifier = 99 :=
  ⟨rfl, rfl, rfl, rfl, rfl⟩

/-- C4 amended: on every failing invocation of read_header the record fields
are untouched, except on the size-out-of-bounds failure, where the four
header fields (chunk_data_offset, data_size, identifier, written_time) have
already been stored from the chunk bytes. -/
theorem read_header_error_mutation
    (rv : RecordValues) (chunk_data : List Nat) (o : Nat) (k : HeaderError)
    (h : (libevtx_record_values_read_header rv chunk_data o).1 = Except.error k) :
    (k ≠ HeaderError.sizeOutOfBounds →
      (libevtx_record_values_read_header rv chunk_data o).2 = rv) ∧
    (k = HeaderError.sizeOutOfBounds →
      (libevtx_record_values_read_header rv chunk_data o).2 =
        readHeaderStores rv chunk_data o) := by
  rcases hE : libevtx_record_values_read_header rv chunk_data o with ⟨r, rv2⟩
  rw [hE] at h
  unfold libevtx_record_values_read_header at hE
  split at hE <;> [skip; split at hE] <;> [skip; skip; split at hE] <;>
    [skip; skip; skip; split at hE] <;> [skip; skip; skip; skip; split at hE]
  all_goals injection hE with hr hv
  all_goals subst hr
  all_goals subst hv
  all_goals simp at h
  all_goals subst h
  all_goals exact ⟨fun hne => by simp_all, fun heq => by simp_all⟩

/-- Witness for the amended C4 at a concrete chunk with a flipped signature
byte: the failing call leaves the record exactly as it was. -/
theorem read_header_error_mutation_witness :
    (libevtx_record_values_read_header RecordValues.empty flipped_signature_chunk 0).2 =
      RecordValues.empty :=
  (read_header_error_mutation RecordValues.empty flipped_signature_chunk 0
    HeaderError.unsupportedSignature rfl).1 (by decide)

/-! Theorems about the event identifier and event level accessors. -/

/-- C1: on a record with a decoded XML document, a still-unset memo and an
Event/System/EventID element whose value is coercible to u32, the first call
to get_event_identifier returns 1 and yields (qualifiers << 16) | eventid
when the EventID element carries a u32-coercible Qualifiers attribute. -/
theorem event_identifier_combines_qualifiers
    (rv : RecordValues) (root system_tag eventid_tag qualifiers_tag : XmlTag)
    (v q : Nat)
    (hdoc : rv.xml_document = some root)
    (hmemo : rv.event_identifier_value = none)
    (hsys : findElementNamed root ("System") = some system_tag)
    (hev : findElementNamed system_tag ("EventID") = some eventid_tag)
    (hval : eventid_tag.value = some v)
    (hv : v < 4294967296)
    (hq : findAttributeNamed eventid_tag ("Qualifiers") = some qualifiers_tag)
    (hqval : qualifiers_tag.value = some q)
    (hq32 : q < 4294967296) :
    libevtx_record_values_get_event_identifier rv =
      (1, { rv with event_identifier_value := some v },
        some (Nat.lor v (q * 65536 % 4294967296))) := by
  simp [libevtx_record_values_get_event_identifier,
    libfwevt_xml_tag_get_element_by_utf8_name,
    libfwevt_xml_tag_get_attribute_by_utf8_name, libfwevt_xml_tag_get_value,
    libfvalue_value_copy_to_32bit, hdoc, hmemo, hsys, hev, hval, hv, hq,
    hqval, hq32]

/-- EventID element of the concrete record used to witness C1: value 0x1234
and a Qualifiers attribute of value 0x0001. -/
def qualified_eventid_tag : XmlTag :=
  XmlTag.mk ("EventID") [XmlTag.mk ("Qualifiers") [] [] (some 1)] [] (some 0x1234)

/-- Concrete record used to witness C1. -/
def qualified_record : RecordValues :=
  { RecordValues.empty with
    xml_document := some (XmlTag.mk ("Event") []
      [XmlTag.mk ("System") [] [qualified_eventid_tag] none] none) }

/-- Witness for C1: on the concrete record with Qualifiers=0x0001 and
EventID value 0x1234, the first call returns 1 and yields 0x00011234. -/
theorem event_identifier_combines_qualifiers_witness :
    libevtx_record_values_get_event_identifier qualified_record =
      (1, { qualified_record with event_identifier_value := some 0x1234 },
        some (Nat.lor 0x1234 (1 * 65536 % 4294967296))) ∧
    Nat.lor 0x1234 (1 * 65536 % 4294967296) = 0x00011234 :=
  ⟨event_identifier_combines_qualifiers qualified_record
      (XmlTag.mk ("Event") [] [XmlTag.mk ("System") [] [qualified_eventid_tag] none] none)
      (XmlTag.mk ("System") [] [qualified_eventid_tag] none)
      qualified_eventid_tag (XmlTag.mk ("Qualifiers") [] [] (some 1)) 0x1234 1
      rfl rfl rfl rfl rfl (by decide) rfl rfl (by decide),
    by decide⟩

/-- Concrete record whose root element has no System child, used against C5. -/
def no_system_record : RecordValues :=
  { RecordValues.empty with
    xml_document := some (XmlTag.mk ("Event") [] [] none) }

/-- Counterexample to C5: when the root has no System child, both
get_event_identifier and get_event_level return -1 (error), not the 0
(not available) the claim requires. -/
theorem accessors_error_not_zero_when_system_absent :
    (libevtx_record_values_get_event_identifier no_system_record).1 = -1 ∧
    (libevtx_record_values_get_event_level no_system_record).1 = -1 :=
  ⟨rfl, rfl⟩

/-- C5 amended: get_event_identifier and get_event_level return -1 when the
System element, the EventID element or the Level element is absent: unlike
the source-name accessors these two treat a missing field as an error, and
their contract is 1 or -1 only. -/
theorem event_identifier_and_level_error_when_absent
    (rv : RecordValues) (root : XmlTag)
    (hdoc : rv.xml_document = some root)
    (hmemo1 : rv.event_identifier_value = none)
    (hmemo2 : rv.level_value = none) :
    (findElementNamed root ("System") = none →
      libevtx_record_values_get_event_identifier rv = (-1, rv, none) ∧
      libevtx_record_values_get_event_level rv = (-1, rv, none)) ∧
    (∀ system_tag, findElementNamed root ("System") = some system_tag →
      findElementNamed system_tag ("EventID") = none →
      libevtx_record_values_get_event_identifier rv = (-1, rv, none)) ∧
    (∀ system_tag, findElementNamed root ("System") = some system_tag →
      findElementNamed system_tag ("Level") = none →
      libevtx_record_values_get_event_level rv = (-1, rv, none)) := by
  refine ⟨fun hs => ⟨?_, ?_⟩, fun system_tag hs he => ?_, fun system_tag hs hl => ?_⟩
  · simp [libevtx_record_values_get_event_identifier,
      libfwevt_xml_tag_get_element_by_utf8_name, hdoc, hmemo1, hs]
  · simp [libevtx_record_values_get_event_level,
      libfwevt_xml_tag_get_element_by_utf8_name, hdoc, hmemo2, hs]
  · simp [libevtx_record_values_get_event_identifier,
      libfwevt_xml_tag_get_element_by_utf8_name, hdoc, hmemo1, hs, he]
  · simp [libevtx_record_values_get_event_level,
      libfwevt_xml_tag_get_element_by_utf8_name, hdoc, hmemo2, hs, hl]

/-- Witness for the amended C5 at the concrete record without a System
child: get_event_identifier reports -1 and writes nothing. -/
theorem event_identifier_and_level_error_when_absent_witness :
    libevtx_record_values_get_event_identifier no_system_record =
      (-1, no_system_record, none) :=
  ((event_identifier_and_level_error_when_absent no_system_record
      (XmlTag.mk ("Event") [] [] none) rfl rfl rfl).1 rfl).1

/-- Concrete record with Event/System/EventID (value 0x1234, Qualifiers
attribute 0x0001), used against C3. -/
def repeated_call_record : RecordValues :=
  { RecordValues.empty with
    xml_document := some (XmlTag.mk ("Event") []
      [XmlTag.mk ("System") []
        [XmlTag.mk ("EventID") [XmlTag.mk ("Qualifiers") [] [] (some 1)] []
          (some 0x1234)] none] none) }

/-- C3 (code bug): get_event_identifier is not idempotent. The first call on
the concrete record succeeds with 0x00011234 and memoises the EventID value;
the second call skips the tree walk, leaving the local eventid tag variable
NULL, so the Qualifiers attribute lookup fails and the call returns -1. -/
theorem event_identifier_second_call_fails :
    (libevtx_record_values_get_event_identifier repeated_call_record).1 = 1 ∧
    (libevtx_record_values_get_event_identifier repeated_call_record).2.2 =
      some 0x00011234 ∧
    (libevtx_record_values_get_event_identifier
      (libevtx_record_values_get_event_identifier repeated_call_record).2.1).1 = -1 :=
  ⟨rfl, rfl, rfl⟩

/-! Theorems about cloning. -/

/-- Concrete source record used against C7: every memoised member is set, as
after a sequence of successful accessor calls. -/
def memoised_source_record : RecordValues :=
  { chunk_data_offset := 512, data_size := 120, identifier := 7,
    written_time := 3, xml_document := some (XmlTag.mk ("Event") [] [] none),
    event_identifier_value := some 0x1234, level_value := some 2,
    provider_name_value := some 10, computer_value := some 11,
    event_data_xml_tag := some (XmlTag.mk ("EventData") [] [] none),
    event_data_type := 1, binary_data_value := some 12 }

/-- C7 (code bug): clone duplicates the whole struct and resets only the
xml_document member, so every memoised handle of the destination still
equals the source's handle - in the C code a pointer into the SOURCE's tree -
instead of being reset to NULL as the specification requires. -/
theorem clone_does_not_reset_memoised_handles :
    (libevtx_record_values_clone (some memoised_source_record)).1 = 1 ∧
    ((libevtx_record_values_clone (some memoised_source_record)).2.map
      (fun d => d.event_identifier_value)) = some (some 0x1234) ∧
    ((libevtx_record_values_clone (some memoised_source_record)).2.map
      (fun d => d.level_value)) = some (some 2) ∧
    ((libevtx_record_values_clone (some memoised_source_record)).2.map
      (fun d => d.provider_name_value)) = some (some 10) ∧
    ((libevtx_record_values_clone (some memoised_source_record)).2.map
      (fun d => d.computer_value)) = some (some 11) ∧
    ((libevtx_record_values_clone (some memoised_source_record)).2.map
      (fun d => d.binary_data_value)) = some (some 12) ∧
    ((libevtx_record_values_clone (some memoised_source_record)).2.map
      (fun d => d.event_data_xml_tag.isSome)) = some true :=
  ⟨rfl, rfl, rfl, rfl, rfl, rfl, rfl⟩

/-! Theorems about the string-count accessor. -/

/-- Helper: over children none of which pass the Data test, the counting
loop leaves the running count unchanged. -/
theorem count_data_strings_of_no_data (rest : List XmlTag) :
    ∀ element_index number_of_strings : Nat,
      (∀ t ∈ rest, isDataElement t = false) →
      libevtx_record_values_count_data_strings rest element_index number_of_strings =
        Except.ok number_of_strings := by
  induction rest with
  | nil => intro i n _; rfl
  | cons c cs ih =>
    intro i n h
    have hc := h c (List.mem_cons_self c cs)
    simp only [libevtx_record_values_count_data_strings, hc, Bool.false_eq_true,
      if_false]
    exact ih (i + 1) n (fun t ht => h t (List.mem_cons_of_mem c ht))

/-- Helper: when the Data children are exactly a leading block followed by
children that all fail the Data test, the loop started at matching index and
count succeeds and adds the block length. -/
theorem count_data_strings_of_contiguous (ds : List XmlTag) :
    ∀ (rest : List XmlTag) (n : Nat),
      (∀ t ∈ ds, isDataElement t = true) →
      (∀ t ∈ rest, isDataElement t = false) →
      libevtx_record_values_count_data_strings (ds ++ rest) n n =
        Except.ok (n + ds.length) := by
  induction ds with
  | nil =>
    intro rest n _ hrest
    simpa using count_data_strings_of_no_data rest n n hrest
  | cons d ds ih =>
    intro rest n hds hrest
    have hd := hds d (List.mem_cons_self d ds)
    simp only [List.cons_append, libevtx_record_values_count_data_strings, hd,
      if_true, ne_eq, not_true_eq_false, if_false, ite_self, List.length_cons]
    have h2 := ih rest (n + 1) (fun t ht => hds t (List.mem_cons_of_mem d ht)) hrest
    rw [show n + 1 + ds.length = n + (ds.length + 1) from by omega] at h2
    exact h2

/-- Helper: a child passing the Data test at a position that disagrees with
the running count makes the loop fail with the non-contiguous-Data error. -/
theorem count_data_strings_of_gap (cs : List XmlTag) :
    ∀ (element_index number_of_strings i : Nat) (t : XmlTag),
      cs.get? i = some t → isDataElement t = true →
      element_index + i ≠
        number_of_strings + (cs.take i).countP (fun e => isDataElement e) →
      ∃ m, libevtx_record_values_count_data_strings cs element_index number_of_strings =
        Except.error m := by
  induction cs with
  | nil => intro idx n i t hget _ _; simp at hget
  | cons c cs ih =>
    intro idx n i t hget hd hne
    by_cases hc : isDataElement c = true
    · by_cases hidx : idx = n
      · subst hidx
        cases i with
        | zero =>
          simp at hne
        | succ j =>
          have hget' : cs.get? j = some t := hget
          have hne' : (idx + 1) + j ≠
              (idx + 1) + (cs.take j).countP (fun e => isDataElement e) := by
            have htake : (List.take (j + 1) (c :: cs)).countP (fun e => isDataElement e) =
                (cs.take j).countP (fun e => isDataElement e) + 1 := by
              simp [List.countP_cons, hc]
            rw [htake] at hne
            omega
          obtain ⟨m, hm⟩ := ih (idx + 1) (idx + 1) j t hget' hd hne'
          refine ⟨m, ?_⟩
          simp only [libevtx_record_values_count_data_strings, hc, if_true, ne_eq,
            not_true_eq_false, if_false, ite_self]
          exact hm
      · refine ⟨n, ?_⟩
        simp only [libevtx_record_values_count_data_strings, hc, if_true]
        rw [if_pos hidx]
    · have hc' : isDataElement c = false := by
        simpa using hc
      cases i with
      | zero =>
        have : c = t := by simpa using hget
        rw [this] at hc'
        rw [hd] at hc'
        simp at hc'
      | succ j =>
        have hget' : cs.get? j = some t := hget
        have hne' : (idx + 1) + j ≠
            n + (cs.take j).countP (fun e => isDataElement e) := by
          have htake : (List.take (j + 1) (c :: cs)).countP (fun e => isDataElement e) =
              (cs.take j).countP (fun e => isDataElement e) := by
            simp [List.countP_cons, hc']
          rw [htake] at hne
          omega
        obtain ⟨m, hm⟩ := ih (idx + 1) n j t hget' hd hne'
        refine ⟨m, ?_⟩
        simp only [libevtx_record_values_count_data_strings, hc', Bool.false_eq_true,
          if_false]
        exact hm

/-- C6: on a record whose event-data container resolves to Event/EventData,
the string count succeeds with the length of the leading Data block when the
Data children form a contiguous block starting at index 0, and the accessor
fails with -1 (the non-contiguous-Data error) when some Data child sits at
an index that differs from the number of Data children before it. -/
theorem number_of_strings_contiguous_data
    (rv : RecordValues) (root event_data_tag : XmlTag)
    (hdoc : rv.xml_document = some root)
    (hmemo : rv.event_data_xml_tag = none)
    (hed : findElementNamed root ("EventData") = some event_data_tag) :
    (∀ ds rest, event_data_tag.elements = ds ++ rest →
      (∀ t ∈ ds, isDataElement t = true) →
      (∀ t ∈ rest, isDataElement t = false) →
      libevtx_record_values_get_number_of_strings rv =
        (1,
          { rv with
            event_data_xml_tag := some event_data_tag,
            event_data_type := LIBEVTX_RECORD_VALUES_EVENT_DATA_TYPE_EVENT_DATA },
          some ds.length)) ∧
    (∀ i t, event_data_tag.elements.get? i = some t → isDataElement t = true →
      i ≠ (event_data_tag.elements.take i).countP (fun e => isDataElement e) →
      (libevtx_record_values_get_number_of_strings rv).1 = -1) := by
  constructor
  · intro ds rest hsplit hds hrest
    have hcount := count_data_strings_of_contiguous ds rest 0 hds hrest
    simp [libevtx_record_values_get_number_of_strings,
      libevtx_record_values_get_event_data_xml_tag,
      libfwevt_xml_tag_get_element_by_utf8_name,
      LIBEVTX_RECORD_VALUES_EVENT_DATA_TYPE_EVENT_DATA,
      LIBEVTX_RECORD_VALUES_EVENT_DATA_TYPE_USER_DATA,
      hdoc, hmemo, hed, hsplit, hcount]
  · intro i t hget hd hne
    obtain ⟨m, hm⟩ :=
      count_data_strings_of_gap event_data_tag.elements 0 0 i t hget hd
        (by simpa using hne)
    simp [libevtx_record_values_get_number_of_strings,
      libevtx_record_values_get_event_data_xml_tag,
      libfwevt_xml_tag_get_element_by_utf8_name,
      LIBEVTX_RECORD_VALUES_EVENT_DATA_TYPE_EVENT_DATA,
      LIBEVTX_RECORD_VALUES_EVENT_DATA_TYPE_USER_DATA,
      hdoc, hmemo, hed, hm]

/-- EventData container with a contiguous Data block, used to witness C6. -/
def contiguous_event_data_tag : XmlTag :=
  XmlTag.mk ("EventData") []
    [XmlTag.mk ("Data") [] [] (some 5), XmlTag.mk ("Data") [] [] (some 6)] none

/-- Concrete record with children Data, Data under EventData. -/
def contiguous_event_data_record : RecordValues :=
  { RecordValues.empty with
    xml_document := some (XmlTag.mk ("Event") [] [contiguous_event_data_tag] none) }

/-- EventData container with children Data, Data, Foo, Data, used to witness
the error half of C6 (scenario S5). -/
def gapped_event_data_tag : XmlTag :=
  XmlTag.mk ("EventData") []
    [XmlTag.mk ("Data") [] [] (some 5), XmlTag.mk ("Data") [] [] (some 6),
      XmlTag.mk ("Foo") [] [] (some 7), XmlTag.mk ("Data") [] [] (some 8)] none

/-- Concrete record with children Data, Data, Foo, Data under EventData. -/
def gapped_event_data_record : RecordValues :=
  { RecordValues.empty with
    xml_document := some (XmlTag.mk ("Event") [] [gapped_event_data_tag] none) }

/-- Witness for C6: the contiguous record reports 2 strings with status 1,
and the record with children Data, Data, Foo, Data fails with -1. -/
theorem number_of_strings_contiguous_data_witness :
    libevtx_record_values_get_number_of_strings contiguous_event_data_record =
      (1,
        { contiguous_event_data_record with
          event_data_xml_tag := some contiguous_event_data_tag,
          event_data_type := LIBEVTX_RECORD_VALUES_EVENT_DATA_TYPE_EVENT_DATA },
        some 2) ∧
    (libevtx_record_values_get_number_of_strings gapped_event_data_record).1 = -1 := by
  constructor
  · exact (number_of_strings_contiguous_data contiguous_event_data_record
      (XmlTag.mk ("Event") [] [contiguous_event_data_tag] none)
      contiguous_event_data_tag rfl rfl rfl).1
      [XmlTag.mk ("Data") [] [] (some 5), XmlTag.mk ("Data") [] [] (some 6)] []
      rfl (by decide) (by decide)
  · exact (number_of_strings_contiguous_data gapped_event_data_record
      (XmlTag.mk ("Event") [] [gapped_event_data_tag] none)
      gapped_event_data_tag rfl rfl rfl).2 3 (XmlTag.mk ("Data") [] [] (some 8))
      rfl (by decide) (by decide)

/-- C10: on a record whose root element has neither an EventData nor a
UserData child, get_number_of_strings returns 1 and reports zero strings. -/
theorem number_of_strings_zero_without_container
    (rv : RecordValues) (root : XmlTag)
    (hdoc : rv.xml_document = some root)
    (hmemo : rv.event_data_xml_tag = none)
    (hed : findElementNamed root ("EventData") = none)
    (hud : findElementNamed root ("UserData") = none) :
    libevtx_record_values_get_number_of_strings rv = (1, rv, some 0) := by
  simp [libevtx_record_values_get_number_of_strings,
    libevtx_record_values_get_event_data_xml_tag,
    libfwevt_xml_tag_get_element_by_utf8_name, hdoc, hmemo, hed, hud]

/-- Concrete record whose root has a System child but no EventData or
UserData child, used to witness C10. -/
def no_container_record : RecordValues :=
  { RecordValues.empty with
    xml_document :=
      some (XmlTag.mk ("Event") [] [XmlTag.mk ("System") [] [] none] none) }

/-- Witness for C10 at the concrete record without an event-data container:
status 1 and zero strings. -/
theorem number_of_strings_zero_without_container_witness :
    libevtx_record_values_get_number_of_strings no_container_record =
      (1, no_container_record, some 0) :=
  number_of_strings_zero_without_container no_container_record
    (XmlTag.mk ("Event") [] [XmlTag.mk ("System") [] [] none] none) rfl rfl rfl rfl

end Evtx
